import Mathlib

/-!
Verification of the Book Content RAG agent (agent.py, api.py).

The agent is embedded shallowly: external services (Cohere embedding,
Qdrant vector search, Cohere generation) are oracles in an `Env` record,
exceptions are `Except Unit`, similarity scores are rationals, and
`BookContentAgent.query` becomes a pure function returning the answer
string together with the trace of external calls it issued.
-/

/-- Python whitespace code points, the set stripped by `str.strip()`. -/
def pySpaceCodes : List Nat :=
  [0x09, 0x0a, 0x0b, 0x0c, 0x0d, 0x1c, 0x1d, 0x1e, 0x1f, 0x20,
   0x85, 0xa0, 0x1680,
   0x2000, 0x2001, 0x2002, 0x2003, 0x2004, 0x2005, 0x2006, 0x2007,
   0x2008, 0x2009, 0x200a, 0x2028, 0x2029, 0x202f, 0x205f, 0x3000]

def isPySpace (c : Char) : Bool := pySpaceCodes.contains c.toNat

/-- Python `str.strip()`: drop leading and trailing whitespace. -/
def pyStrip (s : String) : String :=
  ⟨((s.toList.dropWhile isPySpace).reverse.dropWhile isPySpace).reverse⟩

/-- Python slicing `s[:n]` on a string: its first `n` characters. -/
def pyTake (n : Nat) (s : String) : String := ⟨s.toList.take n⟩

/-- ASCII case folding of one character (`A`..`Z` to `a`..`z`). -/
def asciiLower (c : Char) : Char :=
  if 'A' ≤ c ∧ c ≤ 'Z' then Char.ofNat (c.toNat + 32) else c

/-- Python `str.lower()` restricted to ASCII letters. -/
def pyLower (s : String) : String := ⟨s.toList.map asciiLower⟩

/-- Whether `needle` occurs as a contiguous run inside `hay`. -/
def listSub (needle : List Char) : List Char → Bool
  | [] => needle.isEmpty
  | c :: t => needle.isPrefixOf (c :: t) || listSub needle t

/-- Python `needle in hay` on strings: substring containment. -/
def hasSub (hay needle : String) : Bool :=
  listSub needle.toList hay.toList

-- Fixed message strings returned by BookContentAgent.query (agent.py).

def emptyMsg : String := "Query cannot be empty."

def greetingMsg : String :=
  "Hello! I\x27m your Book Assistant. Ask me anything about ROS 2, humanoid robotics, or the course material."

def offTopicMsg : String :=
  "I can only answer questions related to the book content. Please ask about robotics, ROS 2, or the course material."

def unavailableMsg : String :=
  "⚠️ AI services are not configured.\n\nPlease set COHERE_API_KEY to enable question answering."

def noContentMsg : String :=
  "No relevant book content found. Try asking about ROS 2 or humanoid robotics."

def noResponseMsg : String :=
  "No response generated. Please rephrase your question."

def internalErrorMsg : String :=
  "Sorry, I encountered an internal error while processing your request."

/-- The greeting set of agent.py. -/
def greetings : List String :=
  ["hello", "hi", "hey", "good morning", "good evening", "good afternoon"]

/-- The off-topic keyword list of agent.py. -/
def offTopicKeywords : List String :=
  ["weather", "joke", "news", "sports", "movie", "celebrity",
   "crypto", "recipe", "food", "travel", "music", "song",
   "health", "medical", "exercise", "diet"]

/-- A stored payload: a dict that may or may not carry a "content" key. -/
structure Payload where
  content : Option String
deriving Repr, DecidableEq

/-- One Qdrant search hit: an optional score and an optional payload. -/
structure Hit where
  score : Option ℚ
  payload : Option Payload
deriving Repr, DecidableEq

/-- Python expression `(hit.payload or ...).get("content", "")` from
agent.py: the stored content of a hit, defaulting to the empty string. -/
def hitContent (h : Hit) : String :=
  match h.payload with
  | none => ""
  | some p => p.content.getD ""

/-- Python expression `float(hit.score or 0.0)` from agent.py: the score
of a hit, defaulting to zero. -/
def hitScore (h : Hit) : ℚ := h.score.getD 0

/-- One element of `retrieved_content` in agent.py. -/
structure RetrievedItem where
  content : String
  score : ℚ
deriving Repr, DecidableEq

/-- The per-hit branch of the retrieval loop of agent.py: keep the hit iff
its score is at least 0.3 and its content is non-empty after stripping,
truncating the kept content to 800 characters. -/
def keepHit (h : Hit) : Option RetrievedItem :=
  if (3 / 10 : ℚ) ≤ hitScore h then
    let text := hitContent h
    if (pyStrip text).isEmpty then none
    else some ⟨pyTake 800 text, hitScore h⟩
  else none

/-- The retrieval loop of agent.py: builds `retrieved_content` from the
search hits in order. -/
def filterHits (hits : List Hit) : List RetrievedItem :=
  hits.filterMap keepHit

/-- The labeled, delimiter-separated context block of agent.py. -/
def buildContext (items : List RetrievedItem) : String :=
  String.intercalate "\n\n---\n\n"
    (items.enum.map fun p =>
      "[Excerpt " ++ toString (p.1 + 1) ++ "]:\n" ++ p.2.content)

/-- The RAG prompt f-string of agent.py. -/
def ragPrompt (context userInput : String) : String :=
  "\nYou are a helpful assistant that answers questions ONLY using the provided book excerpts below.\n\nBOOK EXCERPTS:\n"
    ++ context
    ++ "\n\nUSER QUESTION:\n"
    ++ userInput
    ++ "\n\nINSTRUCTIONS:\n- Answer ONLY using information from the book excerpts.\n- Do NOT use outside knowledge.\n- Be concise and accurate.\n\nANSWER:\n"

/-- A query embedding vector. -/
abbrev Vec := List ℚ

/-- An external call issued by the agent, with the arguments agent.py
passes to the client library. -/
inductive CallEvent where
  | embedCall (text : String) (model inputType : String)
  | searchCall (collection : String) (lim : Nat) (withPayload : Bool)
  | chatCall (model : String) (message : String) (temp : ℚ) (maxTokens : Nat)
deriving Repr, DecidableEq

/-- The agent environment: whether each client was configured at
startup, the collection name, and the behaviour of the three external
calls (`Except.error` models a raised exception; the chat result is the
`response.text` field, which may be absent). -/
structure Env where
  cohereConfigured : Bool
  qdrantConfigured : Bool
  collection : String
  embed : String → Except Unit (List Vec)
  search : Vec → Except Unit (List Hit)
  chat : String → Except Unit (Option String)

/-- The `try` block of BookContentAgent.query: embedding, optional vector
search, filtering, prompt construction and generation, with every raised
exception converted to the fixed internal-error message.  Returns the
answer together with the trace of external calls issued. -/
def tryBody (env : Env) (userInput : String) : String × List CallEvent :=
  let embedEv := CallEvent.embedCall userInput "embed-english-v3.0" "search_query"
  match env.embed userInput with
  | .error _ => (internalErrorMsg, [embedEv])
  | .ok embeddings =>
    match embeddings with
    | [] => (internalErrorMsg, [embedEv])
    | queryVector :: _ =>
      if env.qdrantConfigured then
        let searchEv := CallEvent.searchCall env.collection 5 true
        match env.search queryVector with
        | .error _ => (internalErrorMsg, [embedEv, searchEv])
        | .ok hits =>
          let retrieved := filterHits hits
          if retrieved.isEmpty then (noContentMsg, [embedEv, searchEv])
          else
            let prompt := ragPrompt (buildContext retrieved) userInput
            let chatEv := CallEvent.chatCall "command-a-03-2025" prompt (1 / 5 : ℚ) 500
            match env.chat prompt with
            | .error _ => (internalErrorMsg, [embedEv, searchEv, chatEv])
            | .ok respText =>
              let answer :=
                match respText with
                | none => ""
                | some t => if t.isEmpty then "" else pyStrip t
              (if answer.isEmpty then noResponseMsg else answer,
               [embedEv, searchEv, chatEv])
      else
        (noContentMsg, [embedEv])

/-- BookContentAgent.query from agent.py: the straight-line decision list
(empty, greeting, off-topic, unconfigured) followed by the
retrieval-augmented flow. -/
def query (env : Env) (userInput : String) : String × List CallEvent :=
  if (pyStrip userInput).isEmpty then (emptyMsg, [])
  else if greetings.contains (pyStrip (pyLower userInput)) then (greetingMsg, [])
  else if offTopicKeywords.any (fun k => hasSub (pyLower userInput) k) then (offTopicMsg, [])
  else if !env.cohereConfigured then (unavailableMsg, [])
  else tryBody env userInput

/-- The per-session agent map of api.py (AgentManager), with agent
instances abstracted as numeric identifiers handed out in creation
order. -/
structure ManagerState where
  agents : List (String × Nat)
  nextId : Nat
deriving Repr, DecidableEq

/-- Key selection `session_id or "default"` from api.py (Python `or`:
both `None` and the empty string fall back to "default"). -/
def sessionKey (sessionId : Option String) : String :=
  match sessionId with
  | none => "default"
  | some s => if s.isEmpty then "default" else s

/-- AgentManager.get_agent from api.py: reuse the stored instance for the
key, or create a fresh one and store it. -/
def getAgent (st : ManagerState) (sessionId : Option String) :
    Nat × ManagerState :=
  let key := sessionKey sessionId
  match st.agents.lookup key with
  | some a => (a, st)
  | none => (st.nextId, ⟨st.agents ++ [(key, st.nextId)], st.nextId + 1⟩)

/-- Spec-side restatement of the filtering rule, following the spec text:
keep only neighbors whose similarity score is at least 0.30 and whose
payload content is non-empty after stripping whitespace, in
search-result order, each kept content truncated to its first 800
characters. -/
def specRetained (hits : List Hit) : List RetrievedItem :=
  (hits.filter fun h =>
      decide ((3 / 10 : ℚ) ≤ hitScore h) && !(pyStrip (hitContent h)).isEmpty).map
    fun h => ⟨pyTake 800 (hitContent h), hitScore h⟩

theorem pyStrip_empty : pyStrip "" = "" := rfl

/-- The spec example: search results with scores 0.5, 0.2 and 0.4, each
carrying non-empty content. -/
def c1Hits : List Hit :=
  [⟨some (1 / 2), some ⟨some "alpha"⟩⟩,
   ⟨some (1 / 5), some ⟨some "beta"⟩⟩,
   ⟨some (2 / 5), some ⟨some "gamma"⟩⟩]

/-- A passage of 900 identical characters, longer than the 800-character
truncation limit. -/
def longText : String := ⟨List.replicate 900 'a'⟩

set_option maxRecDepth 8000

theorem retained_eq_spec (hits : List Hit) :
    filterHits hits = specRetained hits := by
  induction hits with
  | nil => rfl
  | cons h t ih =>
    by_cases hsc : (3 / 10 : ℚ) ≤ hitScore h
    · by_cases hct : (pyStrip (hitContent h)).isEmpty
      · simpa [filterHits, specRetained, keepHit, hsc, hct] using ih
      · simpa [filterHits, specRetained, keepHit, hsc, hct] using ih
    · simpa [filterHits, specRetained, keepHit, hsc] using ih

/-- C1: in the retrieval-augmented flow, the retained passages are, in
search-result order, exactly the returned neighbors with similarity
score at least 0.30 (inclusive) and payload content non-empty after
stripping, each retained content truncated to its first 800 characters;
for returned scores 0.5, 0.2, 0.4 with non-empty content exactly the
0.5 and 0.4 entries are retained, and a 900-character passage is kept as
its first 800 characters. -/
theorem C1_retained_passages :
    (∀ hits : List Hit, filterHits hits = specRetained hits) ∧
    filterHits c1Hits = [⟨"alpha", 1 / 2⟩, ⟨"gamma", 2 / 5⟩] ∧
    filterHits [⟨some (1 / 2), some ⟨some longText⟩⟩]
      = [⟨⟨List.replicate 800 'a'⟩, 1 / 2⟩] := by
  refine ⟨retained_eq_spec, ?_, ?_⟩
  · have ha : (pyStrip "alpha").isEmpty = false := by decide
    have hb : (pyStrip "beta").isEmpty = false := by decide
    have hg : (pyStrip "gamma").isEmpty = false := by decide
    have ta : pyTake 800 "alpha" = "alpha" := by decide
    have tg : pyTake 800 "gamma" = "gamma" := by decide
    norm_num [c1Hits, filterHits, List.filterMap_cons, keepHit, hitScore,
      hitContent, ha, hb, hg, ta, tg]
  · have hne : (pyStrip longText).isEmpty = false := by decide
    have ht : pyTake 800 longText = ⟨List.replicate 800 'a'⟩ := by decide
    norm_num [filterHits, List.filterMap_cons, keepHit, hitScore, hitContent,
      hne, ht]

/-- A fully configured environment whose calls all succeed: the search
returns one qualifying passage and the chat returns a padded answer. -/
def wEnv : Env :=
  ⟨true, true, "book_embeddings",
   fun _ => .ok [[1]],
   fun _ => .ok [⟨some (1 / 2), some ⟨some "alpha"⟩⟩],
   fun _ => .ok (some "  An answer.  ")⟩

/-- An environment with the generation client unconfigured. -/
def wEnvNoCohere : Env :=
  ⟨false, true, "book_embeddings",
   fun _ => .ok [[1]],
   fun _ => .ok [⟨some (1 / 2), some ⟨some "alpha"⟩⟩],
   fun _ => .ok (some "  An answer.  ")⟩

/-- An environment whose embedding call raises. -/
def wEnvEmbedErr : Env :=
  ⟨true, true, "book_embeddings",
   fun _ => .error (),
   fun _ => .ok [⟨some (1 / 2), some ⟨some "alpha"⟩⟩],
   fun _ => .ok (some "  An answer.  ")⟩

/-- An environment whose vector search returns no hits. -/
def wEnvNoHits : Env :=
  ⟨true, true, "book_embeddings",
   fun _ => .ok [[1]],
   fun _ => .ok [],
   fun _ => .ok (some "  An answer.  ")⟩

/-- An environment with the vector-store client unconfigured. -/
def wEnvNoQdrant : Env :=
  ⟨true, false, "book_embeddings",
   fun _ => .ok [[1]],
   fun _ => .ok [⟨some (1 / 2), some ⟨some "alpha"⟩⟩],
   fun _ => .ok (some "  An answer.  ")⟩

theorem query_eq_tryBody (env : Env) (input : String)
    (h1 : (pyStrip input).isEmpty = false)
    (h2 : pyStrip (pyLower input) ∉ greetings)
    (h3 : ∀ k ∈ offTopicKeywords, hasSub (pyLower input) k = false)
    (hc : env.cohereConfigured = true) :
    query env input = tryBody env input := by
  simp [query, h1, h2, hc]
  intro k hk hcon
  simp [h3 k hk] at hcon

/-- C5: for every input that is empty or whitespace-only, query returns
exactly the fixed empty-query message and issues no external calls. -/
theorem C5_empty_query (env : Env) (input : String)
    (h : (pyStrip input).isEmpty = true) :
    query env input = (emptyMsg, []) := by
  simp [query, h]

/-- Witness for C5 at a whitespace-only input. -/
theorem C5_empty_query_witness :
    (pyStrip "   ").isEmpty = true ∧ query wEnv "   " = (emptyMsg, []) :=
  ⟨by decide, C5_empty_query wEnv "   " (by decide)⟩

/-- C6: for every non-empty input whose lower-cased, trimmed form is one
of the fixed greeting phrases, query returns the fixed greeting
message (and issues no external calls). -/
theorem C6_greeting_reply (env : Env) (input : String)
    (h1 : (pyStrip input).isEmpty = false)
    (h2 : pyStrip (pyLower input) ∈ greetings) :
    query env input = (greetingMsg, []) := by
  simp [query, h1, h2]

/-- Witness for C6 at a greeting in mixed case with surrounding blanks. -/
theorem C6_greeting_reply_witness :
    pyStrip (pyLower " HeLLo ") ∈ greetings ∧
      query wEnv " HeLLo " = (greetingMsg, []) :=
  ⟨by decide, C6_greeting_reply wEnv " HeLLo " (by decide) (by decide)⟩

/-- C7: for every non-empty, non-greeting input whose lower-cased form
contains a blocked keyword as a substring, query returns the fixed
off-topic refusal and issues no external calls, whatever the client
configuration. -/
theorem C7_off_topic_refusal (env : Env) (input : String)
    (h1 : (pyStrip input).isEmpty = false)
    (h2 : pyStrip (pyLower input) ∉ greetings)
    (h3 : ∃ k ∈ offTopicKeywords, hasSub (pyLower input) k = true) :
    query env input = (offTopicMsg, []) := by
  simp [query, h1, h2, h3]

/-- Witness for C7 at an input containing the blocked keyword "joke". -/
theorem C7_off_topic_refusal_witness :
    hasSub (pyLower "Tell me a JOKE") "joke" = true ∧
      query wEnv "Tell me a JOKE" = (offTopicMsg, []) :=
  ⟨by decide, C7_off_topic_refusal wEnv "Tell me a JOKE" (by decide) (by decide)
      ⟨"joke", by decide, by decide⟩⟩

/-- C3: if the generation client is unconfigured, every non-empty,
non-greeting input without blocked keywords yields the fixed
service-unavailable message with no external calls. -/
theorem C3_unconfigured_unavailable (env : Env) (input : String)
    (hc : env.cohereConfigured = false)
    (h1 : (pyStrip input).isEmpty = false)
    (h2 : pyStrip (pyLower input) ∉ greetings)
    (h3 : ∀ k ∈ offTopicKeywords, hasSub (pyLower input) k = false) :
    query env input = (unavailableMsg, []) := by
  simp [query, h1, h2, hc]
  intro k hk hcon
  simp [h3 k hk] at hcon

/-- Witness for C3 at a substantive query with the generation client
unconfigured. -/
theorem C3_unconfigured_unavailable_witness :
    wEnvNoCohere.cohereConfigured = false ∧
      query wEnvNoCohere "What is ROS 2?" = (unavailableMsg, []) :=
  ⟨rfl, C3_unconfigured_unavailable wEnvNoCohere "What is ROS 2?" rfl
      (by decide) (by decide) (by decide)⟩

/-- C2: for every input that reaches the retrieval-augmented flow, an
exception raised during embedding, vector search or generation makes
query return the fixed internal-error message. -/
theorem C2_exception_internal_error (env : Env) (input : String)
    (h1 : (pyStrip input).isEmpty = false)
    (h2 : pyStrip (pyLower input) ∉ greetings)
    (h3 : ∀ k ∈ offTopicKeywords, hasSub (pyLower input) k = false)
    (hc : env.cohereConfigured = true)
    (hexn :
      env.embed input = .error () ∨
      env.embed input = .ok [] ∨
      (∃ v vs, env.embed input = .ok (v :: vs) ∧ env.qdrantConfigured = true ∧
        (env.search v = .error () ∨
         ∃ hits, env.search v = .ok hits ∧ filterHits hits ≠ [] ∧
           env.chat (ragPrompt (buildContext (filterHits hits)) input)
             = .error ()))) :
    (query env input).1 = internalErrorMsg := by
  rw [query_eq_tryBody env input h1 h2 h3 hc]
  rcases hexn with he | he | ⟨v, vs, he, hq, hs | ⟨hits, hs, hne, hchat⟩⟩
  · simp [tryBody, he]
  · simp [tryBody, he]
  · simp [tryBody, he, hq, hs]
  · simp [tryBody, he, hq, hs, hchat, List.isEmpty_iff, hne]

/-- Witness for C2 at an embedding call that raises. -/
theorem C2_exception_internal_error_witness :
    wEnvEmbedErr.embed "What is ROS 2?" = .error () ∧
      (query wEnvEmbedErr "What is ROS 2?").1 = internalErrorMsg :=
  ⟨rfl, C2_exception_internal_error wEnvEmbedErr "What is ROS 2?" (by decide)
      (by decide) (by decide) rfl (Or.inl rfl)⟩

/-- C4: in the retrieval-augmented flow, if no passage survives the
score/content filtering, query returns the fixed no-relevant-content
message and the generation call is never issued (the trace ends at the
search call). -/
theorem C4_no_surviving_passages (env : Env) (input : String)
    (h1 : (pyStrip input).isEmpty = false)
    (h2 : pyStrip (pyLower input) ∉ greetings)
    (h3 : ∀ k ∈ offTopicKeywords, hasSub (pyLower input) k = false)
    (hc : env.cohereConfigured = true)
    (v : Vec) (vs : List Vec) (he : env.embed input = .ok (v :: vs))
    (hq : env.qdrantConfigured = true)
    (hits : List Hit) (hs : env.search v = .ok hits)
    (hf : filterHits hits = []) :
    query env input =
      (noContentMsg,
       [CallEvent.embedCall input "embed-english-v3.0" "search_query",
        CallEvent.searchCall env.collection 5 true]) := by
  rw [query_eq_tryBody env input h1 h2 h3 hc]
  simp [tryBody, he, hq, hs, hf]

/-- Witness for C4 at a search that returns no qualifying passage. -/
theorem C4_no_surviving_passages_witness :
    filterHits [] = [] ∧
      query wEnvNoHits "What is ROS 2?" =
        (noContentMsg,
         [CallEvent.embedCall "What is ROS 2?" "embed-english-v3.0" "search_query",
          CallEvent.searchCall "book_embeddings" 5 true]) :=
  ⟨rfl, C4_no_surviving_passages wEnvNoHits "What is ROS 2?" (by decide)
      (by decide) (by decide) rfl [1] [] rfl rfl [] rfl rfl⟩

/-- C10: with the vector-store client unconfigured but the generation
client configured, every query reaching the retrieval-augmented flow
returns the fixed no-relevant-content message after the embedding call,
with no search and no generation call. -/
theorem C10_no_vector_store (env : Env) (input : String)
    (h1 : (pyStrip input).isEmpty = false)
    (h2 : pyStrip (pyLower input) ∉ greetings)
    (h3 : ∀ k ∈ offTopicKeywords, hasSub (pyLower input) k = false)
    (hc : env.cohereConfigured = true)
    (hq : env.qdrantConfigured = false)
    (v : Vec) (vs : List Vec) (he : env.embed input = .ok (v :: vs)) :
    query env input =
      (noContentMsg,
       [CallEvent.embedCall input "embed-english-v3.0" "search_query"]) := by
  rw [query_eq_tryBody env input h1 h2 h3 hc]
  simp [tryBody, he, hq]

/-- Witness for C10 with only the generation client configured. -/
theorem C10_no_vector_store_witness :
    wEnvNoQdrant.qdrantConfigured = false ∧
      query wEnvNoQdrant "What is ROS 2?" =
        (noContentMsg,
         [CallEvent.embedCall "What is ROS 2?" "embed-english-v3.0" "search_query"]) :=
  ⟨rfl, C10_no_vector_store wEnvNoQdrant "What is ROS 2?" (by decide)
      (by decide) (by decide) rfl rfl [1] [] rfl⟩

/-- C8: when the generation call completes without exception, query
returns the whitespace-trimmed response text, or the fixed
no-response-generated message when that text is absent or trims to
empty. -/
theorem C8_generation_result (env : Env) (input : String)
    (h1 : (pyStrip input).isEmpty = false)
    (h2 : pyStrip (pyLower input) ∉ greetings)
    (h3 : ∀ k ∈ offTopicKeywords, hasSub (pyLower input) k = false)
    (hc : env.cohereConfigured = true)
    (v : Vec) (vs : List Vec) (he : env.embed input = .ok (v :: vs))
    (hq : env.qdrantConfigured = true)
    (hits : List Hit) (hs : env.search v = .ok hits)
    (hne : filterHits hits ≠ [])
    (respText : Option String)
    (hchat : env.chat (ragPrompt (buildContext (filterHits hits)) input)
        = .ok respText) :
    (query env input).1 =
      (if pyStrip (respText.getD "") = "" then noResponseMsg
       else pyStrip (respText.getD "")) := by
  rw [query_eq_tryBody env input h1 h2 h3 hc]
  simp only [tryBody, he, hq, hs, hchat]
  rcases respText with _ | t
  · simp [List.isEmpty_iff, hne, pyStrip_empty, String.isEmpty_iff]
  · by_cases ht : t = ""
    · simp [List.isEmpty_iff, hne, ht, pyStrip_empty, String.isEmpty_iff]
    · simp [List.isEmpty_iff, hne, ht, String.isEmpty_iff]

/-- Witness for C8 at a generation response with surrounding blanks. -/
theorem C8_generation_result_witness :
    pyStrip "  An answer.  " = "An answer." ∧
      (query wEnv "What is ROS 2?").1 = "An answer." := by
  have hne : filterHits [⟨some (1 / 2), some ⟨some "alpha"⟩⟩] ≠ [] := by
    have ha : (pyStrip "alpha").isEmpty = false := by decide
    norm_num [filterHits, List.filterMap_cons, keepHit, hitScore, hitContent, ha]
  refine ⟨by decide, ?_⟩
  have h := C8_generation_result wEnv "What is ROS 2?" (by decide) (by decide)
      (by decide) rfl [1] [] rfl rfl [⟨some (1 / 2), some ⟨some "alpha"⟩⟩] rfl hne
      (some "  An answer.  ") rfl
  rw [h]
  have hps : pyStrip "  An answer.  " = "An answer." := by decide
  simp [hps]

theorem lookup_append_of_some (l l' : List (String × Nat)) (k : String) (a : Nat)
    (h : l.lookup k = some a) : (l ++ l').lookup k = some a := by
  induction l with
  | nil => simp [List.lookup] at h
  | cons p t ih =>
    rcases p with ⟨k', v⟩
    by_cases hk : k == k'
    · simpa [List.lookup, hk] using h
    · rw [Bool.not_eq_true] at hk
      simp only [List.cons_append, List.lookup_cons, hk] at h ⊢
      exact ih h

theorem lookup_append_single (l : List (String × Nat)) (k : String) (v : Nat)
    (h : l.lookup k = none) : (l ++ [(k, v)]).lookup k = some v := by
  induction l with
  | nil => simp [List.lookup]
  | cons p t ih =>
    rcases p with ⟨k', w⟩
    by_cases hk : k == k'
    · simp [List.lookup, hk] at h
    · rw [Bool.not_eq_true] at hk
      simp only [List.cons_append, List.lookup_cons, hk] at h ⊢
      exact ih h

/-- C9: the per-session map of api.py uses the key "default" when no
session id is supplied; a first call with an absent key stores a fresh
instance under that key; a call with a present key returns the stored
instance unchanged; an immediate second call with the same key returns
the same instance; and no call removes an entry, so stored bindings and
membership are preserved by every call. -/
theorem C9_session_map (st : ManagerState) (sid sid' : Option String) :
    sessionKey none = "default" ∧
    (st.agents.lookup (sessionKey sid) = none →
      getAgent st sid =
        (st.nextId, ⟨st.agents ++ [(sessionKey sid, st.nextId)], st.nextId + 1⟩)) ∧
    (∀ a, st.agents.lookup (sessionKey sid) = some a → getAgent st sid = (a, st)) ∧
    getAgent (getAgent st sid).2 sid = ((getAgent st sid).1, (getAgent st sid).2) ∧
    (∀ k a, st.agents.lookup k = some a →
      (getAgent st sid').2.agents.lookup k = some a) ∧
    (∀ p ∈ st.agents, p ∈ (getAgent st sid').2.agents) := by
  refine ⟨rfl, ?_, ?_, ?_, ?_, ?_⟩
  · intro h
    simp [getAgent, h]
  · intro a h
    simp [getAgent, h]
  · rcases h : st.agents.lookup (sessionKey sid) with _ | a
    · simp [getAgent, h, lookup_append_single st.agents (sessionKey sid) st.nextId h]
    · simp [getAgent, h]
  · intro k a h
    rcases h' : st.agents.lookup (sessionKey sid') with _ | b
    · simp [getAgent, h', lookup_append_of_some st.agents _ k a h]
    · simp [getAgent, h', h]
  · intro p hp
    rcases h' : st.agents.lookup (sessionKey sid') with _ | b
    · simp [getAgent, h', hp]
    · simp [getAgent, h', hp]

/-- Witness for C9: looking up a stored session key returns the stored
instance and leaves the map unchanged. -/
theorem C9_session_map_witness :
    getAgent ⟨[("alice", 0)], 1⟩ (some "alice") = (0, ⟨[("alice", 0)], 1⟩) :=
  (C9_session_map ⟨[("alice", 0)], 1⟩ (some "alice") none).2.2.1 0 (by decide)
